import Mathlib

/-!
Verification of the trigger/tracking decision logic of the claude-code-action
repository, shallowly embedded from `src/entrypoints/prepare.ts` and
`src/entrypoints/post-self-review-comment.ts`.  External collaborators
(token provider, GitHub REST client, data fetcher, prompt and MCP builders)
are modelled as `Except`-valued oracles supplied in an environment record;
each run function is the straight-line orchestration of the corresponding
entrypoint, returning its terminal outcome together with a trace of which
collaborator calls were issued.
-/

namespace ClaudeAction

/-- JavaScript `String.prototype.includes`: `listBeginsWith s pat` is true when
`pat` is an initial segment of `s`. -/
def listBeginsWith : List Char → List Char → Bool
  | _, [] => true
  | [], _ :: _ => false
  | a :: as, b :: bs => a == b && listBeginsWith as bs

/-- `listContainsSub s pat` is true when `pat` occurs as a contiguous
subsequence of `s` (JavaScript `includes` over char lists). -/
def listContainsSub : List Char → List Char → Bool
  | [], pat => pat.isEmpty
  | s@(_ :: rest), pat => listBeginsWith s pat || listContainsSub rest pat

/-- JavaScript `s.includes(pat)` on strings. -/
def strContains (s pat : String) : Bool :=
  listContainsSub s.data pat.data

/-- JavaScript truthiness of a `string | undefined` environment value:
`undefined` and the empty string are falsy. -/
def envTruthy : Option String → Bool
  | none => false
  | some s => s != ""

/-- JavaScript template interpolation of a `string | undefined` value:
interpolating `undefined` yields the literal text `undefined`. -/
def jsInterp : Option String → String
  | none => "undefined"
  | some s => s

/-- The sentinel identifying bot-generated self-review request comments,
from `prepare.ts` line 45. -/
def selfReviewMarker : String := "<!-- claude-self-review -->"

/-- The sentinel identifying a review that concluded with no further action
needed, from `post-self-review-comment.ts` line 38. -/
def noFurtherMarker : String := "✅ No further improvements needed"

/-- The body of the self-review comment composed by
`post-self-review-comment.ts` lines 49–58 (the TypeScript template literal,
with `claudeCommentId` interpolated by JavaScript rules). -/
def selfReviewBody (claudeCommentId : Option String) (owner repo : String)
    (entityNumber : Nat) : String :=
  "@claude Please review the changes you just made:\n\n1. **Code Quality**: Are there any potential bugs, security issues, or performance concerns?\n2. **Best Practices**: Does the implementation follow established patterns and conventions?\n3. **Edge Cases**: Are all edge cases properly handled?\n4. **Documentation**: Is the code properly documented?\n5. **Testing**: Are there adequate tests for the changes?\n6. **Improvements**: What could be done better?\n\nReference: Original task [comment #"
    ++ jsInterp claudeCommentId ++ "](https://github.com/" ++ owner ++ "/"
    ++ repo ++ "/issues/" ++ toString entityNumber ++ "#issuecomment-"
    ++ jsInterp claudeCommentId ++ ")"

/-- The author of a GitHub comment (`payload.comment.user`): login and
account type string (`"User"`, `"Bot"`, `"Organization"`). -/
structure CommentUser where
  login : String
  type : String
deriving DecidableEq, Repr

/-- A GitHub issue comment as read by `prepare.ts`: nullable body and author. -/
structure IssueComment where
  body : Option String
  user : CommentUser
deriving DecidableEq, Repr

/-- The slice of the parsed GitHub context consumed by the two entrypoints. -/
structure GitHubContext where
  eventName : String
  owner : String
  repo : String
  entityNumber : Nat
  isPR : Bool
  actor : String
  comment : Option IssueComment
deriving DecidableEq, Repr

/-- Step 4 of `prepare.ts` (lines 39–51): an event is classified as a
self-review request when it is an `issue_comment` event carrying a comment
whose body contains the self-review marker, whose author type is `"Bot"`,
and whose author login is `github-actions[bot]`. -/
def isSelfReviewOf (context : GitHubContext) : Bool :=
  if context.eventName == "issue_comment" then
    match context.comment with
    | some c =>
        strContains (c.body.getD "") selfReviewMarker
          && c.user.type == "Bot"
          && c.user.login == "github-actions[bot]"
    | none => false
  else false

/-- The branch information returned by `setupBranch`. -/
structure BranchInfo where
  baseBranch : String
  claudeBranch : Option String
  currentBranch : String
deriving DecidableEq, Repr

/-- Modelled from the spec: `setupBranch` (src/github/operations/branch, not
in the provided sources) reuses the PR head branch for PR-triggered tasks and
otherwise creates a deterministic working branch named from the entity number
and a task identifier (spec §4.5, §8: `claude/issue-42-<id>`). -/
def specSetupBranch (isPR : Bool) (entityNumber : Nat) (taskId : String)
    (baseBranch prHead : String) : BranchInfo :=
  if isPR then
    { baseBranch := baseBranch, claudeBranch := none, currentBranch := prHead }
  else
    let name := "claude/issue-" ++ toString entityNumber ++ "-" ++ taskId
    { baseBranch := baseBranch, claudeBranch := some name, currentBranch := name }

/-! Section: the post-self-review run (`post-self-review-comment.ts`). -/

/-- Environment of one `post-self-review-comment.ts` run: the two environment
variables, the parsed context fields it uses, and the outcomes of the two
GitHub API calls it may issue.  `getCommentBody` is the result of
`octokit.rest.issues.getComment` projected to the (nullable) comment body;
`createCommentId` is the result of `octokit.rest.issues.createComment`
projected to the new comment id. -/
structure PostEnv where
  githubToken : Option String
  claudeCommentId : Option String
  owner : String
  repo : String
  entityNumber : Nat
  getCommentBody : Except String (Option String)
  createCommentId : Except String Nat
deriving Repr

/-- Terminal outcome of a post-self-review run: clean suppression (`return`
inside the loop guard), a posted comment, or `core.setFailed` plus
`process.exit(1)` with the given message. -/
inductive PostResult where
  | skipped
  | posted (id : Nat)
  | failed (msg : String)
deriving DecidableEq, Repr

/-- Trace of a post-self-review run: whether the prior-comment read was
attempted, and the body handed to `createComment` when posting was attempted. -/
structure PostEffects where
  readAttempted : Bool
  postedBody : Option String
deriving DecidableEq, Repr

/-- The `run` function of `post-self-review-comment.ts`, lines 11–74.
The token check uses JavaScript truthiness (`!githubToken`); the loop guard
runs only when `claudeCommentId` is truthy, treats a thrown read as "no
marker" (fail open), and checks `body?.includes` on the nullable body; the
posted body is `selfReviewBody`; any error thrown outside the inner
`try` is caught and mapped to `core.setFailed` with the prefixed message. -/
def postSelfReviewRun (env : PostEnv) : PostResult × PostEffects :=
  if !(envTruthy env.githubToken) then
    (.failed "Post self-review comment failed: GITHUB_TOKEN is required",
     ⟨false, none⟩)
  else
    let readAttempted := envTruthy env.claudeCommentId
    let suppress : Bool :=
      if envTruthy env.claudeCommentId then
        match env.getCommentBody with
        | .ok b => strContains (b.getD "") noFurtherMarker
        | .error _ => false
      else false
    if suppress then
      (.skipped, ⟨readAttempted, none⟩)
    else
      let body := selfReviewBody env.claudeCommentId env.owner env.repo
        env.entityNumber
      match env.createCommentId with
      | .ok id => (.posted id, ⟨readAttempted, some body⟩)
      | .error e =>
          (.failed ("Post self-review comment failed: " ++ e),
           ⟨readAttempted, some body⟩)

/-! Section: the prepare run (`prepare.ts`). -/

/-- Environment of one `prepare.ts` run: the parsed context plus the outcomes
of every collaborator call, in the order the entrypoint issues them.  The
opaque GitHub data bundle is never inspected by `prepare.ts`, so
`fetchGitHubData` carries `Unit` on success. -/
structure PrepEnv where
  setupGitHubToken : Except String String
  context : GitHubContext
  checkTriggerAction : Except String Bool
  checkWritePermissions : Except String Bool
  checkHumanActor : Except String Unit
  createInitialComment : Except String Nat
  fetchGitHubData : Except String Unit
  setupBranch : Except String BranchInfo
  updateTrackingComment : Except String Unit
  createPrompt : Except String Unit
  prepareMcpConfig : Except String String
deriving Repr

/-- Terminal outcome of a prepare run: success (`mcp_config` output set),
the clean "no trigger" early return, or `core.setFailed` plus
`prepare_error` output plus `process.exit(1)` with the given message. -/
inductive PrepResult where
  | noTrigger
  | success (mcpConfig : String)
  | failed (msg : String)
deriving DecidableEq, Repr

/-- Trace of which collaborator calls a prepare run issued. -/
structure PrepTrace where
  triggerChecked : Bool
  permissionChecked : Bool
  humanActorChecked : Bool
  commentCreated : Bool
  dataFetched : Bool
  branchSetup : Bool
  commentUpdated : Bool
  promptCreated : Bool
  mcpPrepared : Bool
deriving DecidableEq, Repr

/-- The trace before any collaborator call. -/
def emptyTrace : PrepTrace :=
  ⟨false, false, false, false, false, false, false, false, false⟩

/-- Steps 11–12 of `prepare.ts` (lines 96–117): create the prompt file and
the MCP configuration. -/
def stepPrompt (env : PrepEnv) (t : PrepTrace) : PrepResult × PrepTrace :=
  let t := { t with promptCreated := true }
  match env.createPrompt with
  | .error e => (.failed ("Prepare step failed with error: " ++ e), t)
  | .ok _ =>
    let t := { t with mcpPrepared := true }
    match env.prepareMcpConfig with
    | .error e => (.failed ("Prepare step failed with error: " ++ e), t)
    | .ok cfg => (.success cfg, t)

/-- Steps 7–10 of `prepare.ts` (lines 71–94): create the tracking comment,
fetch the data bundle, set up the branch, and update the tracking comment
with the branch link only when `branchInfo.claudeBranch` is truthy. -/
def stepComment (env : PrepEnv) (t : PrepTrace) : PrepResult × PrepTrace :=
  let t := { t with commentCreated := true }
  match env.createInitialComment with
  | .error e => (.failed ("Prepare step failed with error: " ++ e), t)
  | .ok _commentId =>
    let t := { t with dataFetched := true }
    match env.fetchGitHubData with
    | .error e => (.failed ("Prepare step failed with error: " ++ e), t)
    | .ok _ =>
      let t := { t with branchSetup := true }
      match env.setupBranch with
      | .error e => (.failed ("Prepare step failed with error: " ++ e), t)
      | .ok branchInfo =>
        if envTruthy branchInfo.claudeBranch then
          let t := { t with commentUpdated := true }
          match env.updateTrackingComment with
          | .error e => (.failed ("Prepare step failed with error: " ++ e), t)
          | .ok _ => stepPrompt env t
        else stepPrompt env t

/-- The `run` function of `prepare.ts`, lines 22–125.  Token setup, trigger
check (early clean return on `false`), self-review classification, the
permission and human-actor checks gated on `!isSelfReview`, then the
comment/branch/prompt pipeline; any thrown error is caught at the top and
mapped to `core.setFailed` with the prefixed message. -/
def prepareRun (env : PrepEnv) : PrepResult × PrepTrace :=
  match env.setupGitHubToken with
  | .error e => (.failed ("Prepare step failed with error: " ++ e), emptyTrace)
  | .ok _githubToken =>
    let t1 : PrepTrace := { emptyTrace with triggerChecked := true }
    match env.checkTriggerAction with
    | .error e => (.failed ("Prepare step failed with error: " ++ e), t1)
    | .ok containsTrigger =>
      if !containsTrigger then (.noTrigger, t1)
      else
        let isSelfReview := isSelfReviewOf env.context
        if isSelfReview then stepComment env t1
        else
          let t2 := { t1 with permissionChecked := true }
          match env.checkWritePermissions with
          | .error e => (.failed ("Prepare step failed with error: " ++ e), t2)
          | .ok hasWritePermissions =>
            if !hasWritePermissions then
              (.failed ("Prepare step failed with error: Actor does not have write permissions to the repository"),
               t2)
            else
              let t3 := { t2 with humanActorChecked := true }
              match env.checkHumanActor with
              | .error e =>
                  (.failed ("Prepare step failed with error: " ++ e), t3)
              | .ok _ => stepComment env t3

/-! Section: general lemmas about the embedding. -/

/-- An initial-segment match survives appending on the right. -/
theorem listBeginsWith_append (pat s r : List Char)
    (h : listBeginsWith s pat = true) : listBeginsWith (s ++ r) pat = true := by
  induction pat generalizing s with
  | nil => simp [listBeginsWith]
  | cons b bs ih =>
    cases s with
    | nil => simp [listBeginsWith] at h
    | cons a as =>
      simp only [listBeginsWith, Bool.and_eq_true] at h
      simp only [List.cons_append, listBeginsWith, Bool.and_eq_true]
      exact ⟨h.1, ih as h.2⟩

/-- Substring containment survives appending on the right. -/
theorem listContainsSub_append (s r pat : List Char)
    (h : listContainsSub s pat = true) : listContainsSub (s ++ r) pat = true := by
  induction s with
  | nil =>
    have hp : pat = [] := by
      simpa [listContainsSub, List.isEmpty_iff] using h
    subst hp
    cases r with
    | nil => simp [listContainsSub]
    | cons x xs => simp [listContainsSub, listBeginsWith]
  | cons a as ih =>
    simp only [listContainsSub, Bool.or_eq_true] at h
    simp only [List.cons_append, listContainsSub, Bool.or_eq_true]
    rcases h with h | h
    · exact Or.inl (listBeginsWith_append pat (a :: as) r h)
    · exact Or.inr (ih h)

/-- JavaScript `includes` survives appending on the right of the haystack. -/
theorem strContains_append_left (s r pat : String)
    (h : strContains s pat = true) : strContains (s ++ r) pat = true := by
  unfold strContains at h ⊢
  rw [String.data_append]
  exact listContainsSub_append _ _ _ h

/-- `stepPrompt` never touches the trigger flag. -/
theorem stepPrompt_trig (env : PrepEnv) (t : PrepTrace) :
    (stepPrompt env t).2.triggerChecked = t.triggerChecked := by
  unfold stepPrompt
  rcases hp : env.createPrompt with e | u
  · simp
  · rcases hm : env.prepareMcpConfig with e | c <;> simp

/-- `stepPrompt` never touches the permission flag. -/
theorem stepPrompt_perm (env : PrepEnv) (t : PrepTrace) :
    (stepPrompt env t).2.permissionChecked = t.permissionChecked := by
  unfold stepPrompt
  rcases hp : env.createPrompt with e | u
  · simp
  · rcases hm : env.prepareMcpConfig with e | c <;> simp

/-- `stepPrompt` never touches the human-actor flag. -/
theorem stepPrompt_human (env : PrepEnv) (t : PrepTrace) :
    (stepPrompt env t).2.humanActorChecked = t.humanActorChecked := by
  unfold stepPrompt
  rcases hp : env.createPrompt with e | u
  · simp
  · rcases hm : env.prepareMcpConfig with e | c <;> simp

/-- `stepPrompt` never touches the comment-update flag. -/
theorem stepPrompt_updated (env : PrepEnv) (t : PrepTrace) :
    (stepPrompt env t).2.commentUpdated = t.commentUpdated := by
  unfold stepPrompt
  rcases hp : env.createPrompt with e | u
  · simp
  · rcases hm : env.prepareMcpConfig with e | c <;> simp

/-- `stepComment` never touches the trigger flag. -/
theorem stepComment_trig (env : PrepEnv) (t : PrepTrace) :
    (stepComment env t).2.triggerChecked = t.triggerChecked := by
  unfold stepComment
  rcases hc : env.createInitialComment with e | cid
  · simp
  · rcases hf : env.fetchGitHubData with e | u
    · simp
    · rcases hb : env.setupBranch with e | bi
      · simp
      · rcases ht : envTruthy bi.claudeBranch with _ | _ <;>
          simp only [ht, if_true, if_false, Bool.false_eq_true]
        · simp [stepPrompt_trig]
        · rcases hu : env.updateTrackingComment with e | u <;>
            simp [stepPrompt_trig]

/-- `stepComment` never touches the permission flag. -/
theorem stepComment_perm (env : PrepEnv) (t : PrepTrace) :
    (stepComment env t).2.permissionChecked = t.permissionChecked := by
  unfold stepComment
  rcases hc : env.createInitialComment with e | cid
  · simp
  · rcases hf : env.fetchGitHubData with e | u
    · simp
    · rcases hb : env.setupBranch with e | bi
      · simp
      · rcases ht : envTruthy bi.claudeBranch with _ | _ <;>
          simp only [ht, if_true, if_false, Bool.false_eq_true]
        · simp [stepPrompt_perm]
        · rcases hu : env.updateTrackingComment with e | u <;>
            simp [stepPrompt_perm]

/-- `stepComment` never touches the human-actor flag. -/
theorem stepComment_human (env : PrepEnv) (t : PrepTrace) :
    (stepComment env t).2.humanActorChecked = t.humanActorChecked := by
  unfold stepComment
  rcases hc : env.createInitialComment with e | cid
  · simp
  · rcases hf : env.fetchGitHubData with e | u
    · simp
    · rcases hb : env.setupBranch with e | bi
      · simp
      · rcases ht : envTruthy bi.claudeBranch with _ | _ <;>
          simp only [ht, if_true, if_false, Bool.false_eq_true]
        · simp [stepPrompt_human]
        · rcases hu : env.updateTrackingComment with e | u <;>
            simp [stepPrompt_human]

/-- When the tracking comment, data fetch and branch setup all succeed,
`stepComment` marks the comment-update call exactly when the returned
`claudeBranch` is truthy. -/
theorem stepComment_updated (env : PrepEnv) (t : PrepTrace) (cid : Nat)
    (bi : BranchInfo)
    (hc : env.createInitialComment = Except.ok cid)
    (hf : env.fetchGitHubData = Except.ok ())
    (hb : env.setupBranch = Except.ok bi) :
    (stepComment env t).2.commentUpdated
      = (t.commentUpdated || envTruthy bi.claudeBranch) := by
  unfold stepComment
  rw [hc, hf, hb]
  rcases ht : envTruthy bi.claudeBranch with _ | _ <;>
    simp only [ht, if_true, if_false, Bool.false_eq_true]
  · simp [stepPrompt_updated]
  · rcases hu : env.updateTrackingComment with e | u <;>
      simp [stepPrompt_updated]

/-! Section: concrete contexts and environments used as witnesses. -/

/-- A human-authored issue comment mentioning the trigger phrase. -/
def ctxIssueHuman : GitHubContext :=
  { eventName := "issue_comment", owner := "acme", repo := "widgets",
    entityNumber := 42, isPR := false, actor := "alice",
    comment := some { body := some "hey @claude please fix this",
                      user := { login := "alice", type := "User" } } }

/-- A self-review comment authored by the GitHub Actions bot. -/
def ctxSelfReview : GitHubContext :=
  { eventName := "issue_comment", owner := "acme", repo := "widgets",
    entityNumber := 42, isPR := false, actor := "github-actions[bot]",
    comment := some
      { body := some "<!-- claude-self-review --> @claude review",
        user := { login := "github-actions[bot]", type := "Bot" } } }

/-- A prepare environment whose trigger check returns `false`. -/
def prepEnvNoTrigger : PrepEnv :=
  { setupGitHubToken := Except.ok "tok", context := ctxIssueHuman,
    checkTriggerAction := Except.ok false,
    checkWritePermissions := Except.ok true,
    checkHumanActor := Except.ok (), createInitialComment := Except.ok 100,
    fetchGitHubData := Except.ok (),
    setupBranch := Except.ok (specSetupBranch false 42 "20250101-0000" "main" "main"),
    updateTrackingComment := Except.ok (), createPrompt := Except.ok (),
    prepareMcpConfig := Except.ok "cfg" }

/-! Section: the claims. -/

/-- C2: in the prepare run an event is classified as a self-review request
if and only if the event kind is `issue_comment`, the comment body contains
the self-review marker, the author's account kind is `Bot`, and the author
login is `github-actions[bot]`. -/
theorem isSelfReview_iff (context : GitHubContext) :
    isSelfReviewOf context = true ↔
      context.eventName = "issue_comment" ∧
      ∃ c, context.comment = some c ∧
        strContains (c.body.getD "") selfReviewMarker = true ∧
        c.user.type = "Bot" ∧ c.user.login = "github-actions[bot]" := by
  unfold isSelfReviewOf
  by_cases he : context.eventName = "issue_comment"
  · rcases hc : context.comment with _ | c
    · simp [he, hc]
    · simp [he, hc, Bool.and_eq_true, and_assoc]
  · simp [he]

/-- C5: when the token is acquired and the trigger check returns `false`,
the prepare run terminates cleanly with the no-trigger outcome, after
invoking only the trigger check: no permission or human-actor check, no
comment, no data fetch, no branch work, no prompt, no MCP configuration. -/
theorem prepareRun_noTrigger_clean (env : PrepEnv) (tok : String)
    (htok : env.setupGitHubToken = Except.ok tok)
    (htrig : env.checkTriggerAction = Except.ok false) :
    prepareRun env
      = (PrepResult.noTrigger, { emptyTrace with triggerChecked := true }) := by
  unfold prepareRun
  rw [htok, htrig]
  rfl

/-- Closed witness for C5 at a concrete environment. -/
theorem prepareRun_noTrigger_clean_witness :
    prepareRun prepEnvNoTrigger
      = (PrepResult.noTrigger, { emptyTrace with triggerChecked := true }) :=
  prepareRun_noTrigger_clean prepEnvNoTrigger "tok" rfl rfl

/-- C6: once the token is acquired, a prepare run on an event classified as
a self-review request always evaluates the trigger check but never invokes
the write-permission check or the human-actor check. -/
theorem prepareRun_selfReview_skips (env : PrepEnv) (tok : String)
    (htok : env.setupGitHubToken = Except.ok tok)
    (hsr : isSelfReviewOf env.context = true) :
    (prepareRun env).2.triggerChecked = true ∧
    (prepareRun env).2.permissionChecked = false ∧
    (prepareRun env).2.humanActorChecked = false := by
  unfold prepareRun
  rw [htok]
  rcases htrig : env.checkTriggerAction with e | b
  · simp [emptyTrace]
  · rcases b with _ | _
    · simp [emptyTrace]
    · simp only [Bool.not_true, Bool.false_eq_true, if_false, hsr, if_true]
      refine ⟨?_, ?_, ?_⟩
      · rw [stepComment_trig]
      · rw [stepComment_perm]
        simp [emptyTrace]
      · rw [stepComment_human]
        simp [emptyTrace]

/-- A prepare environment for a bot-authored self-review comment whose
trigger check passes. -/
def prepEnvSelfReview : PrepEnv :=
  { setupGitHubToken := Except.ok "tok", context := ctxSelfReview,
    checkTriggerAction := Except.ok true,
    checkWritePermissions := Except.ok true,
    checkHumanActor := Except.ok (), createInitialComment := Except.ok 100,
    fetchGitHubData := Except.ok (),
    setupBranch := Except.ok (specSetupBranch false 42 "20250101-0000" "main" "main"),
    updateTrackingComment := Except.ok (), createPrompt := Except.ok (),
    prepareMcpConfig := Except.ok "cfg" }

/-- Closed witness for C6 at a concrete self-review environment. -/
theorem prepareRun_selfReview_skips_witness :
    (prepareRun prepEnvSelfReview).2.triggerChecked = true ∧
    (prepareRun prepEnvSelfReview).2.permissionChecked = false ∧
    (prepareRun prepEnvSelfReview).2.humanActorChecked = false :=
  prepareRun_selfReview_skips prepEnvSelfReview "tok" rfl (by decide)

/-- C7: on a non-self-review event whose trigger matches, if the actor
lacks write permission or the human-actor check rejects the actor, the
prepare run terminates in the failed state (error output, non-zero exit)
and the tracking-comment creation is never invoked. -/
theorem prepareRun_unauthorized (env : PrepEnv) (tok : String)
    (htok : env.setupGitHubToken = Except.ok tok)
    (htrig : env.checkTriggerAction = Except.ok true)
    (hnsr : isSelfReviewOf env.context = false)
    (hdenied : env.checkWritePermissions = Except.ok false ∨
      (env.checkWritePermissions = Except.ok true ∧
       ∃ e, env.checkHumanActor = Except.error e)) :
    (∃ m, (prepareRun env).1 = PrepResult.failed m) ∧
    (prepareRun env).2.commentCreated = false := by
  unfold prepareRun
  rw [htok, htrig]
  rcases hdenied with hperm | ⟨hperm, e, hhuman⟩
  · rw [hperm]
    simp [hnsr, emptyTrace]
  · rw [hperm, hhuman]
    simp [hnsr, emptyTrace]

/-- A prepare environment for a human-triggered event where the actor lacks
write permission. -/
def prepEnvNoPerm : PrepEnv :=
  { setupGitHubToken := Except.ok "tok", context := ctxIssueHuman,
    checkTriggerAction := Except.ok true,
    checkWritePermissions := Except.ok false,
    checkHumanActor := Except.ok (), createInitialComment := Except.ok 100,
    fetchGitHubData := Except.ok (),
    setupBranch := Except.ok (specSetupBranch false 42 "20250101-0000" "main" "main"),
    updateTrackingComment := Except.ok (), createPrompt := Except.ok (),
    prepareMcpConfig := Except.ok "cfg" }

/-- Closed witness for C7 at a concrete unauthorized environment. -/
theorem prepareRun_unauthorized_witness :
    (∃ m, (prepareRun prepEnvNoPerm).1 = PrepResult.failed m) ∧
    (prepareRun prepEnvNoPerm).2.commentCreated = false :=
  prepareRun_unauthorized prepEnvNoPerm "tok" rfl rfl (by decide) (Or.inl rfl)

/-- C8: on a run that reaches branch setup successfully (whether through the
self-review bypass or through the permission and human-actor checks), the
tracking-comment update is invoked exactly when branch setup returned a
working branch; reusing an existing PR branch (no `claudeBranch`) never
edits the tracking comment.  The hypothesis that a returned branch name is
nonempty reflects the deterministic `claude/issue-<n>-<id>` naming of
`setupBranch`. -/
theorem prepareRun_update_iff (env : PrepEnv) (tok : String) (cid : Nat)
    (bi : BranchInfo)
    (htok : env.setupGitHubToken = Except.ok tok)
    (htrig : env.checkTriggerAction = Except.ok true)
    (hgate : isSelfReviewOf env.context = true ∨
      (isSelfReviewOf env.context = false ∧
       env.checkWritePermissions = Except.ok true ∧
       env.checkHumanActor = Except.ok ()))
    (hc : env.createInitialComment = Except.ok cid)
    (hf : env.fetchGitHubData = Except.ok ())
    (hb : env.setupBranch = Except.ok bi)
    (hne : ∀ s, bi.claudeBranch = some s → s ≠ "") :
    ((prepareRun env).2.commentUpdated = true ↔ bi.claudeBranch.isSome) := by
  have hkey : (prepareRun env).2.commentUpdated = envTruthy bi.claudeBranch := by
    unfold prepareRun
    rw [htok, htrig]
    rcases hgate with hsr | ⟨hnsr, hperm, hhuman⟩
    · simp only [Bool.not_true, Bool.false_eq_true, if_false, hsr, if_true]
      rw [stepComment_updated env _ cid bi hc hf hb]
      rfl
    · simp only [Bool.not_true, Bool.false_eq_true, if_false, hnsr]
      rw [hperm]
      simp only [Bool.not_true, Bool.false_eq_true, if_false]
      rw [hhuman]
      rw [stepComment_updated env _ cid bi hc hf hb]
      rfl
  rw [hkey]
  rcases hcb : bi.claudeBranch with _ | s
  · simp [envTruthy]
  · have hs : s ≠ "" := hne s hcb
    simp [envTruthy, hs]

/-- A prepare environment for a human-triggered issue event that passes all
checks and creates a working branch. -/
def prepEnvIssueBranch : PrepEnv :=
  { setupGitHubToken := Except.ok "tok", context := ctxIssueHuman,
    checkTriggerAction := Except.ok true,
    checkWritePermissions := Except.ok true,
    checkHumanActor := Except.ok (), createInitialComment := Except.ok 100,
    fetchGitHubData := Except.ok (),
    setupBranch := Except.ok (specSetupBranch false 42 "20250101-0000" "main" "main"),
    updateTrackingComment := Except.ok (), createPrompt := Except.ok (),
    prepareMcpConfig := Except.ok "cfg" }

/-- Closed witness for C8 at a concrete issue-triggered environment. -/
theorem prepareRun_update_iff_witness :
    ((prepareRun prepEnvIssueBranch).2.commentUpdated = true ↔
      (specSetupBranch false 42 "20250101-0000" "main" "main").claudeBranch.isSome) :=
  prepareRun_update_iff prepEnvIssueBranch "tok" 100
    (specSetupBranch false 42 "20250101-0000" "main" "main") rfl rfl
    (Or.inr ⟨by decide, rfl, rfl⟩) rfl rfl rfl
    (by intro s hs; simp [specSetupBranch] at hs; subst hs; decide)

/-- C3: when the token is present, the tracking-comment id is truthy, and
the fetched prior comment body contains the "no further action" marker,
the post-self-review run terminates in the clean suppressed state with no
comment created. -/
theorem postRun_suppressed (env : PostEnv) (b : String)
    (htok : envTruthy env.githubToken = true)
    (hid : envTruthy env.claudeCommentId = true)
    (hget : env.getCommentBody = Except.ok (some b))
    (hmark : strContains b noFurtherMarker = true) :
    postSelfReviewRun env = (PostResult.skipped, ⟨true, none⟩) := by
  unfold postSelfReviewRun
  rw [htok, hid, hget]
  simp [hid, hmark]

/-- A post-self-review environment whose prior comment carries the
"no further action" marker. -/
def postEnvConcluded : PostEnv :=
  { githubToken := some "tok", claudeCommentId := some "100",
    owner := "acme", repo := "widgets", entityNumber := 42,
    getCommentBody := Except.ok (some "✅ No further improvements needed"),
    createCommentId := Except.ok 200 }

/-- Closed witness for C3 at a concrete concluded environment. -/
theorem postRun_suppressed_witness :
    postSelfReviewRun postEnvConcluded = (PostResult.skipped, ⟨true, none⟩) :=
  postRun_suppressed postEnvConcluded "✅ No further improvements needed"
    rfl rfl rfl (by decide)

/-- C4: when the token is present and the prior-comment read throws, the
post-self-review run behaves exactly as if the read had returned a body
without the marker — posting proceeds and the read failure is never the
run's outcome. -/
theorem postRun_failOpen (env : PostEnv) (e : String)
    (htok : envTruthy env.githubToken = true)
    (hget : env.getCommentBody = Except.error e) :
    postSelfReviewRun env
      = postSelfReviewRun { env with getCommentBody := Except.ok (some "") } ∧
    (postSelfReviewRun env).2.postedBody
      = some (selfReviewBody env.claudeCommentId env.owner env.repo
          env.entityNumber) := by
  constructor
  · unfold postSelfReviewRun
    rw [htok, hget]
    rcases hid : envTruthy env.claudeCommentId with _ | _
    · simp [hid]
    · simp [hid, strContains, listContainsSub, noFurtherMarker]
  · unfold postSelfReviewRun
    rw [htok, hget]
    rcases hid : envTruthy env.claudeCommentId with _ | _ <;>
      simp only [hid, Bool.false_eq_true, if_false, if_true] <;>
      rcases hcr : env.createCommentId with e | i <;> simp [hcr]

/-- A post-self-review environment whose prior-comment read throws. -/
def postEnvReadFails : PostEnv :=
  { githubToken := some "tok", claudeCommentId := some "100",
    owner := "acme", repo := "widgets", entityNumber := 42,
    getCommentBody := Except.error "HttpError: 404",
    createCommentId := Except.ok 200 }

/-- Closed witness for C4 at a concrete read-failure environment. -/
theorem postRun_failOpen_witness :
    postSelfReviewRun postEnvReadFails
      = postSelfReviewRun
          { postEnvReadFails with getCommentBody := Except.ok (some "") } ∧
    (postSelfReviewRun postEnvReadFails).2.postedBody
      = some (selfReviewBody (some "100") "acme" "widgets" 42) :=
  postRun_failOpen postEnvReadFails "HttpError: 404" rfl rfl

/-- The back-reference fragment `comment #undefined` produced by
interpolating an unset `CLAUDE_COMMENT_ID` occurs in the composed body,
whatever the owner, repository and entity number are. -/
theorem selfReviewBody_contains_undef (owner repo : String) (n : Nat) :
    strContains (selfReviewBody none owner repo n) "comment #undefined" = true := by
  simp only [selfReviewBody, jsInterp]
  apply strContains_append_left
  apply strContains_append_left
  apply strContains_append_left
  apply strContains_append_left
  apply strContains_append_left
  apply strContains_append_left
  apply strContains_append_left
  apply strContains_append_left
  apply strContains_append_left
  set_option maxRecDepth 20000 in decide

/-- C9: when the token is present and the tracking-comment id is absent or
empty, the loop guard is skipped entirely (no read attempted, the run's
outcome is independent of the read result, the run is never suppressed),
the self-review body is handed to the comment-creation call, and an unset
id is interpolated as the literal text `undefined` in the back-reference. -/
theorem postRun_missingId (env : PostEnv)
    (htok : envTruthy env.githubToken = true)
    (hid : envTruthy env.claudeCommentId = false) :
    (postSelfReviewRun env).2.readAttempted = false ∧
    (∀ g, postSelfReviewRun { env with getCommentBody := g }
        = postSelfReviewRun env) ∧
    (postSelfReviewRun env).1 ≠ PostResult.skipped ∧
    (postSelfReviewRun env).2.postedBody
      = some (selfReviewBody env.claudeCommentId env.owner env.repo
          env.entityNumber) ∧
    (env.claudeCommentId = none →
      strContains ((postSelfReviewRun env).2.postedBody.getD "")
        "comment #undefined" = true) := by
  have hrun : postSelfReviewRun env
      = (match env.createCommentId with
         | Except.ok i => (PostResult.posted i,
             ⟨false, some (selfReviewBody env.claudeCommentId env.owner
               env.repo env.entityNumber)⟩)
         | Except.error e =>
             (PostResult.failed ("Post self-review comment failed: " ++ e),
              ⟨false, some (selfReviewBody env.claudeCommentId env.owner
                env.repo env.entityNumber)⟩)) := by
    unfold postSelfReviewRun
    rw [htok, hid]
    simp [hid]
  refine ⟨?_, ?_, ?_, ?_, ?_⟩
  · rw [hrun]
    rcases hcr : env.createCommentId with e | i <;> simp [hcr]
  · intro g
    have hrun' : postSelfReviewRun { env with getCommentBody := g }
        = (match env.createCommentId with
           | Except.ok i => (PostResult.posted i,
               ⟨false, some (selfReviewBody env.claudeCommentId env.owner
                 env.repo env.entityNumber)⟩)
           | Except.error e =>
               (PostResult.failed ("Post self-review comment failed: " ++ e),
                ⟨false, some (selfReviewBody env.claudeCommentId env.owner
                  env.repo env.entityNumber)⟩)) := by
      unfold postSelfReviewRun
      simp [htok, hid]
    rw [hrun, hrun']
  · rw [hrun]
    rcases hcr : env.createCommentId with e | i <;> simp [hcr]
  · rw [hrun]
    rcases hcr : env.createCommentId with e | i <;> simp [hcr]
  · intro hnone
    rw [hrun]
    rcases hcr : env.createCommentId with e | i <;>
      simp [hcr, hnone, selfReviewBody_contains_undef]

/-- A post-self-review environment whose `CLAUDE_COMMENT_ID` is unset. -/
def postEnvNoId : PostEnv :=
  { githubToken := some "tok", claudeCommentId := none,
    owner := "acme", repo := "widgets", entityNumber := 42,
    getCommentBody := Except.ok (some "✅ No further improvements needed"),
    createCommentId := Except.ok 200 }

/-- Closed witness for C9 at a concrete id-less environment. -/
theorem postRun_missingId_witness :
    (postSelfReviewRun postEnvNoId).2.readAttempted = false ∧
    postSelfReviewRun { postEnvNoId with getCommentBody := Except.error "boom" }
      = postSelfReviewRun postEnvNoId ∧
    (postSelfReviewRun postEnvNoId).1 ≠ PostResult.skipped ∧
    (postSelfReviewRun postEnvNoId).2.postedBody
      = some (selfReviewBody none "acme" "widgets" 42) ∧
    strContains ((postSelfReviewRun postEnvNoId).2.postedBody.getD "")
      "comment #undefined" = true := by
  obtain ⟨h1, h2, h3, h4, h5⟩ := postRun_missingId postEnvNoId rfl rfl
  exact ⟨h1, h2 (Except.error "boom"), h3, h4, h5 rfl⟩

/-- C10: the post-self-review run fails with the `GITHUB_TOKEN is required`
message, creating no comment, whenever the token variable is absent; an
absent tracking-comment id, in contrast, still lets the run reach the
comment-creation call. -/
theorem postRun_tokenRequired (env : PostEnv) :
    (env.githubToken = none →
      postSelfReviewRun env
        = (PostResult.failed
            "Post self-review comment failed: GITHUB_TOKEN is required",
           ⟨false, none⟩)) ∧
    (envTruthy env.githubToken = true → env.claudeCommentId = none →
      (postSelfReviewRun env).2.postedBody.isSome = true) := by
  constructor
  · intro hnone
    unfold postSelfReviewRun
    rw [hnone]
    rfl
  · intro htok hid
    unfold postSelfReviewRun
    rw [htok]
    rcases hcr : env.createCommentId with e | i <;>
      simp [hid, envTruthy, hcr]

/-- A post-self-review environment whose `GITHUB_TOKEN` is unset. -/
def postEnvNoToken : PostEnv :=
  { githubToken := none, claudeCommentId := some "100",
    owner := "acme", repo := "widgets", entityNumber := 42,
    getCommentBody := Except.ok none, createCommentId := Except.ok 200 }

/-- Closed witness for C10: the token-less run fails with the required
message, and the id-less run still reaches posting. -/
theorem postRun_tokenRequired_witness :
    postSelfReviewRun postEnvNoToken
      = (PostResult.failed
          "Post self-review comment failed: GITHUB_TOKEN is required",
         ⟨false, none⟩) ∧
    (postSelfReviewRun postEnvNoId).2.postedBody.isSome = true :=
  ⟨(postRun_tokenRequired postEnvNoToken).1 rfl,
   (postRun_tokenRequired postEnvNoId).2 rfl rfl⟩

/-- A post-self-review environment that reaches posting: token and id set,
prior comment present without the "no further action" marker. -/
def postEnvActive : PostEnv :=
  { githubToken := some "tok", claudeCommentId := some "100",
    owner := "acme", repo := "widgets", entityNumber := 42,
    getCommentBody := Except.ok (some "working on it"),
    createCommentId := Except.ok 200 }

set_option maxRecDepth 20000 in
/-- C1: refuted on the code.  The body the post-self-review run posts does
carry the human-readable back-reference to the tracking comment id, but it
does not embed the self-review marker — so the prepare run's own classifier
would not recognize the posted comment as a self-review request even when
authored by the GitHub Actions bot. -/
theorem postedBody_lacks_marker :
    (postSelfReviewRun postEnvActive).2.postedBody
      = some (selfReviewBody (some "100") "acme" "widgets" 42) ∧
    strContains (selfReviewBody (some "100") "acme" "widgets" 42)
      "comment #100" = true ∧
    strContains (selfReviewBody (some "100") "acme" "widgets" 42)
      selfReviewMarker = false ∧
    isSelfReviewOf
      { eventName := "issue_comment", owner := "acme", repo := "widgets",
        entityNumber := 42, isPR := false, actor := "github-actions[bot]",
        comment := some
          { body := some (selfReviewBody (some "100") "acme" "widgets" 42),
            user := { login := "github-actions[bot]", type := "Bot" } } }
      = false := by
  refine ⟨rfl, by decide, by decide, by decide⟩

end ClaudeAction
